import Mathlib

/-!
Verification development for the `xml-a-imagen` promotional-image generator
(`src/index.tsx`).

The development shallowly embeds the two core subsystems of the source:

* the transport-fallback fetch loop of `fetchClusterData` (strategy list,
  first-success selection, post-loop HTML-marker check);
* the feed normalizer (`getText` tolerant field lookup, `parsePrice`,
  installment resolution, `mappedProducts`, `validProducts`);
* the layout engine `drawProduct`, embedded as the ordered list of canvas
  draw operations it issues.

JavaScript numbers that can be `NaN` are embedded as `Option ℚ` / `Option ℤ`
(`none` = `NaN`); JS comparisons on them (`>`/`<=`, always false on `NaN`)
are embedded by the `jsGt` / `jsLe` / `jsGtI` helpers.  External browser
APIs (`parseFloat`, `parseInt`, `encodeURIComponent`,
`Intl.NumberFormat`) are modelled by computable functions that follow the
ECMAScript behaviour on the character sets this program feeds them.
-/

attribute [local semireducible] Rat.add Rat.mul Rat.inv Rat.sub Rat.ofScientific

deriving instance DecidableEq for Except

/-- Parsed XML tree: an element with a (qualified) tag name and children, or
a text node.  Namespaced tags such as `g:price` are kept as literal tag
strings, which is how the source looks them up. -/
inductive XmlNode where
  | elem (tag : String) (children : List XmlNode)
  | text (s : String)

mutual

/-- DOM `textContent`: concatenation of all descendant text nodes. -/
def textContent : XmlNode → String
  | .text s => s
  | .elem _ cs => textContentList cs

/-- Concatenated `textContent` of a list of sibling nodes. -/
def textContentList : List XmlNode → String
  | [] => ""
  | c :: cs => textContent c ++ textContentList cs

end

mutual

/-- All elements with the given tag in the subtree rooted at a node,
including the node itself, in document order. -/
def selfEls (tag : String) : XmlNode → List XmlNode
  | .text _ => []
  | .elem t cs => (if t = tag then [XmlNode.elem t cs] else []) ++ childEls tag cs

/-- All elements with the given tag inside a list of sibling subtrees. -/
def childEls (tag : String) : List XmlNode → List XmlNode
  | [] => []
  | c :: cs => selfEls tag c ++ childEls tag cs

end

/-- DOM `element.getElementsByTagName(tag)`: all proper descendants of the
node with the given tag (the node itself is excluded). -/
def getEls (n : XmlNode) (tag : String) : List XmlNode :=
  match n with
  | .text _ => []
  | .elem _ cs => childEls tag cs

/-- DOM `document.getElementsByTagName(tag)`: all elements of the document
tree with the given tag, the root element included. -/
def docGetEls (root : XmlNode) (tag : String) : List XmlNode :=
  selfEls tag root

/-- JavaScript `String.prototype.trim`, on the character list of a string. -/
def jsTrimList (l : List Char) : List Char :=
  ((l.dropWhile Char.isWhitespace).reverse.dropWhile Char.isWhitespace).reverse

/-- JavaScript `String.prototype.trim`. -/
def jsTrim (s : String) : String :=
  String.mk (jsTrimList s.toList)

/-- Test whether the second list is an initial segment of the first. -/
def listStartsWith : List Char → List Char → Bool
  | _, [] => true
  | [], _ :: _ => false
  | c :: cs, d :: ds => c = d && listStartsWith cs ds

/-- Test whether the second list occurs as a contiguous segment of the
first (JS `String.prototype.includes` on character lists). -/
def listContainsSub : List Char → List Char → Bool
  | [], pat => pat.isEmpty
  | c :: cs, pat => listStartsWith (c :: cs) pat || listContainsSub cs pat

/-- JS `String.prototype.includes`. -/
def strContains (s sub : String) : Bool :=
  listContainsSub s.toList sub.toList

/-- One lookup step of the source's `getText` helper: take the first
element named `t` below `item`; if it exists and its `textContent` is
truthy (non-empty), return the trimmed text, otherwise nothing
(`if (el && el.textContent) return el.textContent.trim();`). -/
def tryTag (item : XmlNode) (t : String) : Option String :=
  match (getEls item t).head? with
  | some el => if textContent el ≠ "" then some (jsTrim (textContent el)) else none
  | none => none

/-- The source's `getText(tags)` helper inside `mappedProducts`: for each
candidate tag try the plain name, then the `g:` variant, then the `ns:`
variant, returning the first non-empty text content; `''` if all fail. -/
def getText (item : XmlNode) : List String → String
  | [] => ""
  | t :: ts =>
    match (tryTag item t).orElse (fun _ => (tryTag item ("g:" ++ t)).orElse
        (fun _ => tryTag item ("ns:" ++ t))) with
    | some s => s
    | none => getText item ts

/-- Numeric value of a list of decimal digit characters (most significant
first), as read left to right. -/
def digitsVal (l : List Char) : ℕ :=
  l.foldl (fun a c => 10 * a + (c.toNat - 48)) 0

/-- Fraction digits of the `parseFloat` model: the digit run right after a
leading dot, empty otherwise. -/
def fracDigits (rest2 : List Char) : List Char :=
  if rest2.head? = some '.' then rest2.tail.takeWhile Char.isDigit else []

/-- Model of ECMAScript `parseFloat` on an unsigned list of characters:
integer digits, optional fraction after a single dot; the longest such
numeric prefix is converted, anything after it is ignored; if the prefix
contains no digit the result is `NaN` (`none`).  (The `Infinity` and
exponent forms never arise from this program's inputs and are not
modelled.) -/
def jsParseFloatVal (rest : List Char) : Option ℚ :=
  let intP := rest.takeWhile Char.isDigit
  let fracP := fracDigits (rest.drop intP.length)
  if intP.isEmpty ∧ fracP.isEmpty then none
  else some ((digitsVal intP : ℚ) + (digitsVal fracP : ℚ) / (10 ^ fracP.length))

/-- Sign handling of the `parseFloat` model: an optional leading sign in
front of the digits read by `jsParseFloatVal`. -/
def jsParseFloatCore (l : List Char) : Option ℚ :=
  let rest := if l.head? = some '-' ∨ l.head? = some '+' then l.tail else l
  (jsParseFloatVal rest).map (fun v => if l.head? = some '-' then -v else v)

/-- Model of ECMAScript `parseFloat` on a string. -/
def jsParseFloat (s : String) : Option ℚ :=
  jsParseFloatCore s.toList

/-- Model of ECMAScript `parseInt(s, 10)`: skip leading whitespace,
optional sign, then the digit run; `NaN` (`none`) when no digit follows. -/
def jsParseInt (s : String) : Option ℤ :=
  let l := s.toList.dropWhile Char.isWhitespace
  let rest := if l.head? = some '-' ∨ l.head? = some '+' then l.tail else l
  let ds := rest.takeWhile Char.isDigit
  if ds.isEmpty then none
  else some (if l.head? = some '-' then -(digitsVal ds : ℤ) else (digitsVal ds : ℤ))

/-- First run of decimal digits in a character list, as a number: the
source's `instText.match(/(\d+)/)` followed by `parseInt(match[1], 10)`. -/
def firstDigitRun : List Char → Option ℕ
  | [] => none
  | c :: t => if c.isDigit then some (digitsVal (c :: t.takeWhile Char.isDigit)) else firstDigitRun t

/-- Characters kept by the source's price cleaning `replace(/[^\d.,]/g, '')`. -/
def priceChar (c : Char) : Bool :=
  c.isDigit || c == '.' || c == ','

/-- JavaScript `String.prototype.replace(',', '.')`: only the first comma
is replaced. -/
def replaceFirstComma : List Char → List Char
  | [] => []
  | c :: cs => if c = ',' then '.' :: cs else c :: replaceFirstComma cs

/-- The source's `parsePrice`: falsy (empty) input yields `0`; otherwise
strip every character that is not a digit, dot or comma, replace the first
comma by a dot, and `parseFloat` the result (which is `NaN`, embedded as
`none`, when no digit survives). -/
def parsePrice (p : String) : Option ℚ :=
  if p = "" then some 0
  else jsParseFloatCore (replaceFirstComma (p.toList.filter priceChar))

/-- JS number-to-string conversion for a possibly-`NaN` integer
(`installments.toString()` and template interpolation in the source). -/
def jsNumToString (o : Option ℤ) : String :=
  match o with
  | some n => toString n
  | none => "NaN"

/-- JS `>` between a possibly-`NaN` number and a rational: false on `NaN`. -/
def jsGt (o : Option ℚ) (q : ℚ) : Bool :=
  match o with
  | some v => decide (q < v)
  | none => false

/-- JS `<=` between a possibly-`NaN` number and a rational: false on `NaN`. -/
def jsLe (o : Option ℚ) (q : ℚ) : Bool :=
  match o with
  | some v => decide (v ≤ q)
  | none => false

/-- JS `>` between a possibly-`NaN` integer and an integer: false on `NaN`. -/
def jsGtI (o : Option ℤ) (n : ℤ) : Bool :=
  match o with
  | some v => decide (n < v)
  | none => false

section Fetcher

/-- Failure outcomes of the fetch phase of `fetchClusterData`: either no
strategy produced a (truthy) body, or the accepted body was detected to be
an HTML page served by the named proxy. -/
inductive FetchError where
  | exhausted
  | htmlProxy (source : String)
deriving DecidableEq

/-- HTML-marker test the source applies to the fetched body:
`xmlText.trim().toLowerCase().startsWith('<!doctype html') || xmlText.includes('<html')`. -/
def isHtmlBody (s : String) : Bool :=
  listStartsWith ((jsTrimList s.toList).map Char.toLower) "<!doctype html".toList
    || strContains s "<html"

/-- The strategy loop of `fetchClusterData`: each entry is a strategy name
paired with the body text that strategy would leave in `xmlText` (`none`
for a transport failure, a non-ok response, or a falsy body).  The loop
takes the first strategy with a body and ignores the rest. -/
def firstSuccess : List (String × Option String) → Option (String × String)
  | [] => none
  | (n, some b) :: _ => some (n, b)
  | (_, none) :: rest => firstSuccess rest

/-- Fetch phase of `fetchClusterData` after the strategy loop: no body at
all throws the exhaustion error; a body that looks like an HTML document
throws the proxy-HTML error naming the successful strategy; otherwise the
body is returned. -/
def fetchClusterText (responses : List (String × Option String)) : Except FetchError String :=
  match firstSuccess responses with
  | none => .error .exhausted
  | some (n, b) => if isHtmlBody b then .error (.htmlProxy n) else .ok b

end Fetcher

section Normalizer

/-- Canonical product record of the source (`interface Product`).  The JS
number fields are embedded as `Option ℚ` / `Option ℤ` with `none` for
`NaN`; the optional `bankPromo` and `pickup` fields are embedded as an
empty string and a plain flag, which is how every construction site of
the source fills them. -/
structure Product where
  id : String
  name : String
  price : Option ℚ
  listPrice : Option ℚ
  imageUrl : String
  installments : Option ℤ
  freeShipping : Bool
  sku : String
  pickup : Bool
  bankPromo : String
deriving DecidableEq

/-- `title` resolution of `mappedProducts`: `getText(['title', 'name'])`. -/
def itemTitle (item : XmlNode) : String :=
  getText item ["title", "name"]

/-- `id` resolution of `mappedProducts`: `getText(['id', 'sku', 'g:id'])`. -/
def itemId (item : XmlNode) : String :=
  getText item ["id", "sku", "g:id"]

/-- `rawPrice` of `mappedProducts`: `getText(['price', 'g:price'])`. -/
def itemRawPrice (item : XmlNode) : String :=
  getText item ["price", "g:price"]

/-- `rawSalePrice` of `mappedProducts`: `getText(['sale_price', 'g:sale_price'])`. -/
def itemRawSalePrice (item : XmlNode) : String :=
  getText item ["sale_price", "g:sale_price"]

/-- `rawImage` of `mappedProducts`: `getText(['image_link', 'g:image_link'])`. -/
def itemRawImage (item : XmlNode) : String :=
  getText item ["image_link", "g:image_link"]

/-- Installment resolution of `mappedProducts`: prefer a nested
`g:installment`/`installment` element (reading its first `g:months` or
`months` text and applying `parseInt`), falling back to the first digit
run of a flat `installment`/`installments` text field, and defaulting to
`1`. -/
def resolveInstallments (item : XmlNode) : Option ℤ :=
  match ((getEls item "g:installment").head?).orElse
      (fun _ => (getEls item "installment").head?) with
  | some instNode =>
    let m1 := (((getEls instNode "g:months").head?).map textContent).getD ""
    let months := if m1 ≠ "" then m1
      else (((getEls instNode "months").head?).map textContent).getD ""
    if months ≠ "" then jsParseInt months else some 1
  | none =>
    let instText := getText item ["installment", "installments"]
    if instText ≠ "" then
      match firstDigitRun instText.toList with
      | some d => some (d : ℤ)
      | none => some 1
    else some 1

/-- Effective price of `mappedProducts`:
`rawSalePrice ? parsePrice(rawSalePrice) : parsePrice(rawPrice)` — the
sale-price string being truthy (non-empty) selects it, whatever value it
parses to. -/
def itemPrice (item : XmlNode) : Option ℚ :=
  if itemRawSalePrice item ≠ "" then parsePrice (itemRawSalePrice item)
  else parsePrice (itemRawPrice item)

/-- List price of `mappedProducts`:
`rawSalePrice && rawPrice ? parsePrice(rawPrice) : 0`. -/
def itemListPrice (item : XmlNode) : Option ℚ :=
  if itemRawSalePrice item ≠ "" ∧ itemRawPrice item ≠ "" then parsePrice (itemRawPrice item)
  else some 0

/-- Hexadecimal digit character (uppercase), for percent-encoding. -/
def hexDigit (n : ℕ) : Char :=
  if n < 10 then Char.ofNat (48 + n) else Char.ofNat (55 + n)

/-- Characters `encodeURIComponent` leaves unescaped. -/
def isUnreservedURIChar (c : Char) : Bool :=
  c.isAlphanum || c == '-' || c == '_' || c == '.' || c == '!' || c == '~' ||
    c == '*' || c == '(' || c == ')' || c == '\''

/-- Model of the browser's `encodeURIComponent` on ASCII strings:
unreserved characters kept, others percent-encoded (multi-byte UTF-8
escaping is not modelled; the program only feeds it URLs). -/
def encodeURIComponentList : List Char → List Char
  | [] => []
  | c :: cs =>
    (if isUnreservedURIChar c then [c]
     else ['%', hexDigit (c.toNat / 16 % 16), hexDigit (c.toNat % 16)]) ++
      encodeURIComponentList cs

/-- Model of the browser's `encodeURIComponent`. -/
def encodeURIComponent (s : String) : String :=
  String.mk (encodeURIComponentList s.toList)

/-- Image URL of `mappedProducts`: strip the query string
(`rawImage.split('?')[0]`) and rewrite through the `wsrv.nl` proxy
template; empty when no image field resolved. -/
def itemImageUrl (item : XmlNode) : String :=
  let cleanImage := String.mk ((itemRawImage item).toList.takeWhile (fun c => c ≠ '?'))
  if cleanImage ≠ "" then
    "https://wsrv.nl/?url=" ++ encodeURIComponent cleanImage ++ "&output=jpg&w=1000&h=1000"
  else ""

/-- The per-element mapping of `mappedProducts`, with the value of
`Math.random().toString(36)` passed in as `rand`. -/
def mapProduct (item : XmlNode) (rand : String) : Product where
  id := if itemId item ≠ "" then itemId item else rand
  name := if itemTitle item ≠ "" then itemTitle item else "Sin Nombre"
  price := itemPrice item
  listPrice := itemListPrice item
  imageUrl := itemImageUrl item
  installments := resolveInstallments item
  freeShipping := jsGt (itemPrice item) 100000
  sku := if itemId item ≠ "" then itemId item else "N/A"
  pickup := true
  bankPromo := ""

/-- Keep-predicate of the `validProducts` filter:
`p.price > 0 || p.name !== "Sin Nombre"`. -/
def keepB (p : Product) : Bool :=
  jsGt p.price 0 || p.name != "Sin Nombre"

/-- Map a list of product elements, handing each position its random
fallback id. -/
def mapWithRand (rand : ℕ → String) : ℕ → List XmlNode → List Product
  | _, [] => []
  | i, it :: rest => mapProduct it (rand i) :: mapWithRand rand (i + 1) rest

/-- The source's `mappedProducts` array. -/
def mappedProducts (rand : ℕ → String) (items : List XmlNode) : List Product :=
  mapWithRand rand 0 items

/-- Product-element lookup of `fetchClusterData`: `item`, then `entry`,
then `product`, each tried only when the previous set was empty. -/
def findItems (doc : XmlNode) : List XmlNode :=
  let items := docGetEls doc "item"
  let items := if items.isEmpty then docGetEls doc "entry" else items
  if items.isEmpty then docGetEls doc "product" else items

/-- Failure outcomes of the normalization phase of `fetchClusterData`. -/
inductive NormError where
  | noProductsFound
  | emptyAfterFiltering
deriving DecidableEq

/-- The source's `validProducts`:
`mappedProducts.filter(p => p.price > 0 || p.name !== "Sin Nombre")`. -/
def validProducts (rand : ℕ → String) (doc : XmlNode) : List Product :=
  (mappedProducts rand (findItems doc)).filter keepB

/-- Normalization phase of `fetchClusterData` on a parsed document: find
the product elements (failing when none of the three tag names matches),
map them, filter, and fail when the filter leaves nothing. -/
def normalizeDoc (rand : ℕ → String) (doc : XmlNode) : Except NormError (List Product) :=
  if (findItems doc).isEmpty then .error .noProductsFound
  else if (validProducts rand doc).isEmpty then .error .emptyAfterFiltering
  else .ok (validProducts rand doc)

/-- Export filename of `drawProduct`'s download branch:
`` `pardo_${product.sku}.jpg` ``. -/
def fileName (p : Product) : String :=
  "pardo_" ++ p.sku ++ ".jpg"

end Normalizer

section LayoutEngine

namespace COLORS

/-- Colour palette of the source's `COLORS` constant. -/
def pardoBlue : String := "#0033A0"

def orangeBadge : String := "#FF6600"

def debitBadge : String := "#0055FF"

def pickupBadge : String := "#B3D4FC"

def priceColor : String := "#FF6600"

def frameText : String := "#FFFF00"

end COLORS

/-- Per-render configuration read by `drawProduct` from component state:
frame colour, the two show flags and the custom bank text. -/
structure RenderConfig where
  frameColor : String
  showPrice : Bool
  showBadges : Bool
  customBankText : String
deriving DecidableEq

/-- One canvas operation issued by `drawProduct`, in issue order: a filled
rectangle, a filled rounded rectangle (`roundRect` + `fill`), a drawn
image, or filled text (with its font and fill colour at the time of the
call). -/
inductive DrawOp where
  | fillRect (x y w h : ℚ) (color : String)
  | roundRect (x y w h r : ℚ) (color : String)
  | drawImage (x y w h : ℚ)
  | fillText (s : String) (x y : ℚ) (font color : String)
deriving DecidableEq

/-- Canvas constants of `drawProduct`. -/
def WIDTH : ℚ := 1000

def HEIGHT : ℚ := 1000

def frameTop : ℚ := 130

def frameBottom : ℚ := 130

def safeAreaTop : ℚ := frameTop

def safeAreaHeight : ℚ := HEIGHT - frameTop - frameBottom

/-- JS `Math.round`-style rounding used by the currency formatter model. -/
def jsRound (q : ℚ) : ℤ :=
  ⌊q + 1 / 2⌋

/-- Decimal digit character. -/
def digitChar (d : ℕ) : Char :=
  Char.ofNat (48 + d)

/-- Decimal digits of a number, least significant first (`fuel` bounds the
recursion and is instantiated with `n + 1`). -/
def natDigitsRev (fuel n : ℕ) : List Char :=
  match fuel with
  | 0 => []
  | f + 1 => if n < 10 then [digitChar n] else digitChar (n % 10) :: natDigitsRev f (n / 10)

/-- Insert a dot separator every three digits (input and output least
significant first). -/
def groupRev : List Char → ℕ → List Char
  | [], _ => []
  | c :: cs, k => (if k ≠ 0 ∧ k % 3 = 0 then ['.'] else []) ++ c :: groupRev cs (k + 1)

/-- Thousands-grouped decimal representation (`6199999 ↦ "6.199.999"`). -/
def groupedNat (n : ℕ) : String :=
  String.mk ((groupRev (natDigitsRev (n + 1) n) 0).reverse)

/-- Model of the source's `formatPrice`
(`Intl.NumberFormat('es-AR', currency ARS, minimumFractionDigits 0)`):
round to an integer and group thousands with dots behind a `"$ "` sign
(the locale's non-breaking space is modelled as a plain space). -/
def formatPrice (p : Option ℚ) : String :=
  match p with
  | none => "$ NaN"
  | some q =>
    let r := jsRound q
    "$ " ++ (if r < 0 then "-" else "") ++ groupedNat r.natAbs

/-- JS division of two possibly-`NaN` numbers (`product.price /
product.installments`); division by zero is also collapsed to `none`,
which the source never reaches because it divides only when
`installments > 1`. -/
def divOpt (p : Option ℚ) (n : Option ℤ) : Option ℚ :=
  match p, n with
  | some q, some m => if m = 0 then none else some (q / (m : ℚ))
  | _, _ => none

/-- Step 2 of `drawProduct` (product image): with loaded dimensions, the
aspect-preserving fit below the safe-area top; on load failure, the grey
placeholder with centred text. -/
def imageLayerOps (img : Option (ℚ × ℚ)) : List DrawOp :=
  match img with
  | some (iw, ih) =>
    let maxImgH := safeAreaHeight - 140
    let maxImgW := WIDTH - 20 * 2
    let scale := min (maxImgW / iw) (maxImgH / ih)
    let drawW := iw * scale
    let drawH := ih * scale
    [.drawImage ((WIDTH - drawW) / 2) (safeAreaTop + 40) drawW drawH]
  | none =>
    [.fillRect 100 safeAreaTop 800 safeAreaHeight "#f5f5f5",
     .fillText "Sin Imagen" 500 500 "30px Roboto" "#ccc"]

/-- Step 3 of `drawProduct` (badges): bank-promo badge on the left when a
promo text resolves, installment badge then pickup badge stacked on the
right. -/
def badgeLayerOps (product : Product) (cfg : RenderConfig) : List DrawOp :=
  if cfg.showBadges then
    let badgeY := safeAreaTop + 20
    let leftBadgeY := badgeY
    let rightBadgeY := badgeY
    let promoText := if product.bankPromo ≠ "" then product.bankPromo else cfg.customBankText
    let bankOps : List DrawOp :=
      if promoText ≠ "" then
        [.roundRect 30 leftBadgeY 280 80 10 COLORS.debitBadge,
         .fillText "10% OFF" (30 + 140) (leftBadgeY + 40) "900 36px Roboto" "white",
         .fillText "1 PAGO Débito" (30 + 140) (leftBadgeY + 65) "400 18px Roboto" "white"]
      else []
    let instOps : List DrawOp :=
      if jsGtI product.installments 1 then
        let badgeX := WIDTH - 260 - 30
        [.roundRect badgeX rightBadgeY 260 70 10 COLORS.orangeBadge,
         .fillText (jsNumToString product.installments) (badgeX + 15)
           (rightBadgeY + 70 / 2 + 2) "900 50px Roboto" "white",
         .fillText "SIN" (badgeX + 80) (rightBadgeY + 25) "700 20px Roboto" "white",
         .fillText "INTERÉS" (badgeX + 80) (rightBadgeY + 48) "700 20px Roboto" "white"]
      else []
    let rightBadgeY := if jsGtI product.installments 1 then rightBadgeY + 80 else rightBadgeY
    let pickupOps : List DrawOp :=
      if product.pickup then
        let badgeX := WIDTH - 260 - 30
        [.roundRect badgeX rightBadgeY 260 40 20 COLORS.pickupBadge,
         .fillText "¡RETIRO GRATIS!" (badgeX + 260 / 2) (rightBadgeY + 40 / 2 + 2)
           "700 20px Roboto" "#004488"]
      else []
    bankOps ++ instOps ++ pickupOps
  else []

/-- Step 4 of `drawProduct` (price block): the formatted main price, and
above it the installment breakdown line when `installments > 1`. -/
def priceLayerOps (product : Product) (cfg : RenderConfig) : List DrawOp :=
  if cfg.showPrice then
    let priceY := HEIGHT - frameBottom - 30
    let mainOps : List DrawOp :=
      [.fillText (formatPrice product.price) (WIDTH / 2) priceY "900 110px Roboto"
        COLORS.priceColor]
    let instLineOps : List DrawOp :=
      if jsGtI product.installments 1 then
        let installmentVal := divOpt product.price product.installments
        [.fillText ("Hasta " ++ jsNumToString product.installments ++ "x " ++
            formatPrice installmentVal ++ " cuotas sin interés")
          (WIDTH / 2) (priceY - 110) "700 32px Roboto" COLORS.orangeBadge]
      else []
    mainOps ++ instLineOps
  else []

/-- Step 5 of `drawProduct` (frame overlay): top and bottom bars and the
two 30-unit side bars, painted in the configured frame colour. -/
def frameLayerOps (cfg : RenderConfig) : List DrawOp :=
  [.fillRect 0 0 WIDTH frameTop cfg.frameColor,
   .fillRect 0 (HEIGHT - frameBottom) WIDTH frameBottom cfg.frameColor,
   .fillRect 0 0 30 HEIGHT cfg.frameColor,
   .fillRect (WIDTH - 30) 0 30 HEIGHT cfg.frameColor]

/-- Brand text of `drawProduct`, drawn after the frame bars. -/
def brandLayerOps : List DrawOp :=
  [.fillText "PARDO" (WIDTH / 2) (frameTop / 2) "900 80px Roboto" COLORS.frameText,
   .fillText "WWW.PARDO.COM.AR" (WIDTH / 2) (HEIGHT - frameBottom / 2) "700 30px Roboto"
     COLORS.frameText]

/-- Step 1 of `drawProduct`: the white background fill. -/
def backgroundOps : List DrawOp :=
  [.fillRect 0 0 WIDTH HEIGHT "#FFFFFF"]

/-- The source's `drawProduct` as the ordered list of canvas operations of
one render: white background, image layer, badge layer, price layer,
frame overlay, brand text.  `img` carries the dimensions of the loaded
product photo, `none` when loading failed. -/
def drawProduct (product : Product) (cfg : RenderConfig) (img : Option (ℚ × ℚ)) :
    List DrawOp :=
  backgroundOps ++ imageLayerOps img ++ badgeLayerOps product cfg ++
    priceLayerOps product cfg ++ frameLayerOps cfg ++ brandLayerOps

end LayoutEngine

section ClaimSideDefinitions

/-- Truth of "parses to a non-zero value" for a parsed price (claim C2's
wording): the parse succeeded and gave something other than `0`. -/
def parsesNonzero (o : Option ℚ) : Bool :=
  match o with
  | some q => q != 0
  | none => false

/-- Effective-price rule as the spec words it (claim C2, for comparison
with the source's `itemPrice`): the sale price if a sale-price field is
present and parses to a non-zero value, else the list price. -/
def specEffectivePrice (item : XmlNode) : Option ℚ :=
  if itemRawSalePrice item != "" && parsesNonzero (parsePrice (itemRawSalePrice item)) then
    parsePrice (itemRawSalePrice item)
  else parsePrice (itemRawPrice item)

/-- Truth of `installments >= 1` for a possibly-`NaN` installment count
(false on `NaN`), used by the invariant claims. -/
def instGeOne (o : Option ℤ) : Bool :=
  match o with
  | some n => decide (1 ≤ n)
  | none => false

/-- Recognizer for the installment badge among draw operations: it is the
only rounded rectangle of size 260×70 that `drawProduct` ever issues. -/
def isInstBadgeOp : DrawOp → Bool
  | .roundRect _ _ w h _ _ => w == 260 && h == 70
  | _ => false

/-- Recognizer for the installment breakdown line among draw operations:
it is the only text `drawProduct` ever sets in the `700 32px Roboto`
font. -/
def isBreakdownOp : DrawOp → Bool
  | .fillText _ _ _ f _ => f == "700 32px Roboto"
  | _ => false

/-- Recognizer for a text operation carrying exactly the given string. -/
def textOpIs (s : String) : DrawOp → Bool
  | .fillText t _ _ _ _ => t == s
  | _ => false

/-- Vertical disjointness of two horizontal bands `[y1, y1+h1]` and
`[y2, y2+h2]` (badge non-overlap, claim C9). -/
def vertDisjoint (y1 h1 y2 h2 : ℚ) : Prop :=
  y1 + h1 ≤ y2 ∨ y2 + h2 ≤ y1

end ClaimSideDefinitions

section ClaimFixtures

/-- Claim C2's counterexample element: a list price of 100 together with a
sale price whose field is present but parses to zero. -/
def cexSaleZeroItem : XmlNode :=
  .elem "item" [.elem "title" [.text "A"],
    .elem "price" [.text "100"],
    .elem "sale_price" [.text "0"]]

/-- Claim C2's witness element: a list price and no sale price. -/
def witListOnlyItem : XmlNode :=
  .elem "item" [.elem "title" [.text "B"],
    .elem "price" [.text "500"]]

/-- Claim C4's counterexample element: a usable title (so the record is
kept) next to an installment block announcing zero months. -/
def cexZeroMonthsItem : XmlNode :=
  .elem "item" [.elem "title" [.text "X"],
    .elem "installment" [.elem "months" [.text "0"]]]

/-- Claim C4's counterexample document. -/
def cexZeroMonthsDoc : XmlNode :=
  .elem "rss" [cexZeroMonthsItem]

/-- Claim C4's witness document: one well-formed product element. -/
def witGoodDoc : XmlNode :=
  .elem "rss" [.elem "item" [.elem "title" [.text "TV"],
    .elem "g:price" [.text "6199999 ARS"]]]

/-- Claim C6's witness document: `entry` elements but no `item`. -/
def witEntryDoc : XmlNode :=
  .elem "feed" [.elem "entry" [.elem "title" [.text "E"]]]

/-- Claim C7's counterexample element: a present but digit-free sale-price
field, so the mapped price is `NaN`, next to no title. -/
def cexNaNPriceItem : XmlNode :=
  .elem "item" [.elem "sale_price" [.text "$"]]

/-- Claim C7's witness element: a kept product. -/
def witKeptItem : XmlNode :=
  .elem "item" [.elem "title" [.text "K"],
    .elem "price" [.text "10"]]

/-- Claim C7's witness document around `witKeptItem`. -/
def witKeptDoc : XmlNode :=
  .elem "rss" [witKeptItem]

/-- Claim C7's witness document whose only element maps to a record that
the filter drops (no fields at all). -/
def witAllDroppedDoc : XmlNode :=
  .elem "rss" [.elem "item" []]

/-- Claim C5's failing product: its own non-empty `bankPromo` text. -/
def cexPromoProduct : Product where
  id := "x"
  name := "P"
  price := some 100
  listPrice := some 0
  imageUrl := ""
  installments := some 1
  freeShipping := false
  sku := "x"
  pickup := false
  bankPromo := "5% OFF CONTADO"

/-- Claim C5's render configuration: badges on, empty default bank text. -/
def cexPromoCfg : RenderConfig where
  frameColor := "#0033A0"
  showPrice := false
  showBadges := true
  customBankText := ""

/-- A product with a 12-installment plan (claims C8 and C9). -/
def twelveInstProduct : Product where
  id := "x"
  name := "P"
  price := some 6199999
  listPrice := some 0
  imageUrl := ""
  installments := some 12
  freeShipping := true
  sku := "x"
  pickup := true
  bankPromo := ""

/-- Configuration with badges and price both enabled (claims C8, C9). -/
def allOnCfg : RenderConfig where
  frameColor := "#0033A0"
  showPrice := true
  showBadges := true
  customBankText := "10% OFF 1 PAGO Débito"

/-- Configuration with badges and price both disabled (claim C8's
counterexample). -/
def allOffCfg : RenderConfig where
  frameColor := "#0033A0"
  showPrice := false
  showBadges := false
  customBankText := "10% OFF 1 PAGO Débito"

/-- Claim C10's witness element: no id or sku field at all. -/
def witNoIdItem : XmlNode :=
  .elem "item" [.elem "title" [.text "NoId"]]

/-- Claim C6's witness document with no product elements under any of the
three recognized names. -/
def witNoProductsDoc : XmlNode :=
  .elem "note" [.text "hi"]

end ClaimFixtures

section HelperLemmas

theorem mem_replaceFirstComma {c : Char} :
    ∀ {l : List Char}, c ∈ replaceFirstComma l → c ∈ l ∨ c = '.' := by
  intro l
  induction l with
  | nil => intro h; cases h
  | cons d ds ih =>
    intro h
    rw [replaceFirstComma] at h
    by_cases hd : d = ','
    · rw [if_pos hd] at h
      rcases List.mem_cons.mp h with rfl | h
      · exact Or.inr rfl
      · exact Or.inl (List.mem_cons_of_mem _ h)
    · rw [if_neg hd] at h
      rcases List.mem_cons.mp h with rfl | h
      · exact Or.inl (List.mem_cons_self _ _)
      · rcases ih h with h | h
        · exact Or.inl (List.mem_cons_of_mem _ h)
        · exact Or.inr h

theorem jsParseFloatVal_nonneg {rest : List Char} {v : ℚ}
    (h : jsParseFloatVal rest = some v) : 0 ≤ v := by
  simp only [jsParseFloatVal] at h
  split at h
  · cases h
  · rw [Option.some.injEq] at h
    subst h
    positivity

theorem jsParseFloatCore_nonneg {l : List Char} (hn : l.head? ≠ some '-') {q : ℚ}
    (h : jsParseFloatCore l = some q) : 0 ≤ q := by
  simp only [jsParseFloatCore, Option.map_eq_some', if_neg hn] at h
  obtain ⟨v, hv, rfl⟩ := h
  exact jsParseFloatVal_nonneg hv

theorem parsePrice_nonneg (p : String) (q : ℚ) (h : parsePrice p = some q) : 0 ≤ q := by
  rw [parsePrice] at h
  split at h
  · rw [Option.some.injEq] at h
    subst h
    norm_num
  · refine jsParseFloatCore_nonneg ?_ h
    intro hh
    have hmem : '-' ∈ replaceFirstComma (p.toList.filter priceChar) := by
      cases hl : replaceFirstComma (p.toList.filter priceChar) with
      | nil => rw [hl] at hh; cases hh
      | cons a rest =>
        rw [hl] at hh
        rw [List.head?_cons, Option.some.injEq] at hh
        rw [hh]
        exact List.mem_cons_self _ _
    rcases mem_replaceFirstComma hmem with hc | hc
    · have := List.of_mem_filter hc
      simp [priceChar] at this
    · cases hc

theorem itemPrice_nonneg (item : XmlNode) (q : ℚ) (h : itemPrice item = some q) : 0 ≤ q := by
  rw [itemPrice] at h
  split at h <;> exact parsePrice_nonneg _ _ h

end HelperLemmas

theorem keepB_mapProduct_rand (item : XmlNode) (r r' : String) :
    keepB (mapProduct item r) = keepB (mapProduct item r') := rfl

theorem mem_mapWithRand {rand : ℕ → String} {p : Product} :
    ∀ {i : ℕ} {l : List XmlNode}, p ∈ mapWithRand rand i l →
      ∃ it ∈ l, ∃ j, p = mapProduct it (rand j) := by
  intro i l
  induction l generalizing i with
  | nil => intro h; cases h
  | cons it rest ih =>
    intro h
    rw [mapWithRand] at h
    rcases List.mem_cons.mp h with h | h
    · exact ⟨it, List.mem_cons_self _ _, i, h⟩
    · obtain ⟨it', hm, j, hj⟩ := ih h
      exact ⟨it', List.mem_cons_of_mem _ hm, j, hj⟩

theorem mapWithRand_keep_of_mem (rand : ℕ → String) {it : XmlNode}
    (hk : keepB (mapProduct it "") = true) :
    ∀ (i : ℕ) (l : List XmlNode), it ∈ l →
      ∃ p ∈ mapWithRand rand i l, keepB p = true := by
  intro i l
  induction l generalizing i with
  | nil => intro h; cases h
  | cons hd rest ih =>
    intro h
    rcases List.mem_cons.mp h with rfl | h
    · refine ⟨mapProduct it (rand i), List.mem_cons_self _ _, ?_⟩
      rw [keepB_mapProduct_rand it (rand i) ""]
      exact hk
    · obtain ⟨p, hp, hkp⟩ := ih (i + 1) h
      exact ⟨p, List.mem_cons_of_mem _ hp, hkp⟩

theorem listStartsWith_nil (l : List Char) : listStartsWith l [] = true := by
  cases l <;> rfl

theorem listStartsWith_append {pat l1 : List Char} (l2 : List Char)
    (h : listStartsWith l1 pat = true) : listStartsWith (l1 ++ l2) pat = true := by
  induction pat generalizing l1 with
  | nil => exact listStartsWith_nil _
  | cons c cs ih =>
    cases l1 with
    | nil => cases h
    | cons d ds =>
      simp only [List.cons_append, listStartsWith, Bool.and_eq_true] at h ⊢
      exact ⟨h.1, ih h.2⟩

theorem noInstBadge_backgroundOps : backgroundOps.filter isInstBadgeOp = [] := rfl

theorem noBreakdown_backgroundOps : backgroundOps.filter isBreakdownOp = [] := rfl

theorem noInstBadge_imageOps (img : Option (ℚ × ℚ)) :
    (imageLayerOps img).filter isInstBadgeOp = [] := by
  cases img with
  | none => rfl
  | some wh => obtain ⟨iw, ih⟩ := wh; rfl

theorem noInstBadge_priceOps (p : Product) (cfg : RenderConfig) :
    (priceLayerOps p cfg).filter isInstBadgeOp = [] := by
  rw [priceLayerOps]
  split
  · split <;> rfl
  · rfl

theorem noInstBadge_frameOps (cfg : RenderConfig) :
    (frameLayerOps cfg).filter isInstBadgeOp = [] := rfl

theorem noInstBadge_brandOps : brandLayerOps.filter isInstBadgeOp = [] := rfl

theorem noInstBadge_badgeOps (p : Product) (cfg : RenderConfig)
    (h : jsGtI p.installments 1 = false) :
    (badgeLayerOps p cfg).filter isInstBadgeOp = [] := by
  simp only [badgeLayerOps, h, Bool.false_eq_true, if_false]
  repeat' split
  all_goals rfl

theorem noBreakdown_imageOps (img : Option (ℚ × ℚ)) :
    (imageLayerOps img).filter isBreakdownOp = [] := by
  cases img with
  | none => rfl
  | some wh => obtain ⟨iw, ih⟩ := wh; rfl

theorem noBreakdown_badgeOps (p : Product) (cfg : RenderConfig) :
    (badgeLayerOps p cfg).filter isBreakdownOp = [] := by
  simp only [badgeLayerOps]
  repeat' split
  all_goals rfl

theorem noBreakdown_priceOps (p : Product) (cfg : RenderConfig)
    (h : jsGtI p.installments 1 = false) :
    (priceLayerOps p cfg).filter isBreakdownOp = [] := by
  rw [priceLayerOps]
  split
  · simp only [h, Bool.false_eq_true, if_false]
    rfl
  · rfl

theorem noBreakdown_frameOps (cfg : RenderConfig) :
    (frameLayerOps cfg).filter isBreakdownOp = [] := rfl

theorem noBreakdown_brandOps : brandLayerOps.filter isBreakdownOp = [] := rfl

theorem mem_drawProduct_of_badgeOps {op : DrawOp} {p : Product} {cfg : RenderConfig}
    (img : Option (ℚ × ℚ)) (h : op ∈ badgeLayerOps p cfg) : op ∈ drawProduct p cfg img := by
  rw [drawProduct]
  exact List.mem_append_left _ (List.mem_append_left _ (List.mem_append_left _
    (List.mem_append_right _ h)))

theorem mem_drawProduct_of_priceOps {op : DrawOp} {p : Product} {cfg : RenderConfig}
    (img : Option (ℚ × ℚ)) (h : op ∈ priceLayerOps p cfg) : op ∈ drawProduct p cfg img := by
  rw [drawProduct]
  exact List.mem_append_left _ (List.mem_append_left _ (List.mem_append_right _ h))

theorem instBadge_rect_mem (p : Product) (cfg : RenderConfig)
    (hb : cfg.showBadges = true) (hi : jsGtI p.installments 1 = true) :
    DrawOp.roundRect 710 150 260 70 10 "#FF6600" ∈ badgeLayerOps p cfg := by
  have h1 : WIDTH - 260 - 30 = (710 : ℚ) := by decide
  have h2 : safeAreaTop + 20 = (150 : ℚ) := by decide
  simp only [badgeLayerOps, hb, hi, if_true, h1, h2, COLORS.orangeBadge, List.mem_append]
  refine Or.inl (Or.inr ?_)
  exact List.mem_cons_self _ _

theorem instBadge_text_mem (p : Product) (cfg : RenderConfig)
    (hb : cfg.showBadges = true) (hi : jsGtI p.installments 1 = true) :
    DrawOp.fillText (jsNumToString p.installments) 725 187 "900 50px Roboto" "white" ∈
      badgeLayerOps p cfg := by
  have h1 : WIDTH - 260 - 30 = (710 : ℚ) := by decide
  have h2 : safeAreaTop + 20 = (150 : ℚ) := by decide
  have h3 : (710 : ℚ) + 15 = 725 := by decide
  have h4 : (150 : ℚ) + 70 / 2 + 2 = 187 := by decide
  simp only [badgeLayerOps, hb, hi, if_true, h1, h2, h3, h4, List.mem_append]
  refine Or.inl (Or.inr ?_)
  exact List.mem_cons_of_mem _ (List.mem_cons_self _ _)

theorem pickup_rect_mem_of_inst (p : Product) (cfg : RenderConfig)
    (hb : cfg.showBadges = true) (hpk : p.pickup = true) (hi : jsGtI p.installments 1 = true) :
    DrawOp.roundRect 710 230 260 40 20 "#B3D4FC" ∈ badgeLayerOps p cfg := by
  have h1 : WIDTH - 260 - 30 = (710 : ℚ) := by decide
  have h2 : safeAreaTop + 20 = (150 : ℚ) := by decide
  have h3 : (150 : ℚ) + 80 = 230 := by decide
  simp only [badgeLayerOps, hb, hi, hpk, if_true, h1, h2, h3, COLORS.pickupBadge,
    List.mem_append]
  refine Or.inr ?_
  exact List.mem_cons_self _ _

theorem pickup_rect_mem_of_noInst (p : Product) (cfg : RenderConfig)
    (hb : cfg.showBadges = true) (hpk : p.pickup = true) (hi : jsGtI p.installments 1 = false) :
    DrawOp.roundRect 710 150 260 40 20 "#B3D4FC" ∈ badgeLayerOps p cfg := by
  have h1 : WIDTH - 260 - 30 = (710 : ℚ) := by decide
  have h2 : safeAreaTop + 20 = (150 : ℚ) := by decide
  simp only [badgeLayerOps, hb, hi, hpk, if_true, Bool.false_eq_true, if_false, h1, h2,
    COLORS.pickupBadge, List.mem_append]
  refine Or.inr ?_
  exact List.mem_cons_self _ _

theorem breakdown_text_mem (p : Product) (cfg : RenderConfig)
    (hp : cfg.showPrice = true) (hi : jsGtI p.installments 1 = true) :
    DrawOp.fillText ("Hasta " ++ jsNumToString p.installments ++ "x " ++
        formatPrice (divOpt p.price p.installments) ++ " cuotas sin interés")
      500 730 "700 32px Roboto" "#FF6600" ∈ priceLayerOps p cfg := by
  have h1 : WIDTH / 2 = (500 : ℚ) := by decide
  have h2 : HEIGHT - frameBottom - 30 - 110 = (730 : ℚ) := by decide
  simp only [priceLayerOps, hp, hi, if_true, h1, h2, COLORS.orangeBadge, List.mem_append]
  refine Or.inr ?_
  exact List.mem_cons_self _ _

section ClaimTheorems

/-- C1 (counterexample): the claim says a strategy's successful HTML body
makes the fetcher proceed to the next strategy; in the code the HTML check
runs once after the loop, so with a second strategy ready to return a good
feed body the fetch still fails on the first strategy's HTML body and the
second body is never returned. -/
theorem C1_counterexample_no_next_strategy :
    fetchClusterText
        [("AllOrigins Raw", some "<html><body>blocked</body></html>"),
         ("CORSProxy", some "<?xml version=\"1.0\"?><rss><item></item></rss>")] =
      .error (.htmlProxy "AllOrigins Raw") ∧
    fetchClusterText
        [("AllOrigins Raw", some "<html><body>blocked</body></html>"),
         ("CORSProxy", some "<?xml version=\"1.0\"?><rss><item></item></rss>")] ≠
      .ok "<?xml version=\"1.0\"?><rss><item></item></rss>" :=
  ⟨by decide, by decide⟩

/-- C1 (amended): when the first strategy that yields a truthy body yields
one that begins with, or contains, an HTML-document marker, the fetcher
does not accept that body as output — but instead of proceeding to the
next strategy it fails the whole fetch with an error naming that
strategy. -/
theorem C1_amended_html_aborts_fetch (responses : List (String × Option String))
    (n b : String) (h1 : firstSuccess responses = some (n, b))
    (h2 : isHtmlBody b = true) :
    fetchClusterText responses = .error (.htmlProxy n) := by
  rw [fetchClusterText, h1]
  exact if_pos h2

/-- Witness for C1's amended theorem at a concrete strategy list. -/
theorem C1_amended_html_aborts_fetch_witness :
    fetchClusterText [("AllOrigins Raw", some "<html><body>blocked</body></html>")] =
      .error (.htmlProxy "AllOrigins Raw") :=
  C1_amended_html_aborts_fetch
    [("AllOrigins Raw", some "<html><body>blocked</body></html>")]
    "AllOrigins Raw" "<html><body>blocked</body></html>" (by decide) (by decide)

/-- C2 (counterexample): on an element with list price `"100"` and a
sale-price field holding `"0"`, the code takes the zero sale price (the
sale-price branch is selected by string presence, not by parsed value),
while the claim's rule — sale price only when it parses non-zero — gives
the list price `100`. -/
theorem C2_counterexample_zero_sale :
    (mapProduct cexSaleZeroItem "r").price = some 0 ∧
    specEffectivePrice cexSaleZeroItem = some 100 ∧
    (mapProduct cexSaleZeroItem "r").price ≠ specEffectivePrice cexSaleZeroItem :=
  ⟨by decide, by decide, by decide⟩

/-- C2 (amended): the effective price is the parsed sale price whenever
the sale-price field is present (non-empty), whatever value it parses to,
and the parsed list price otherwise; `listPrice` is the parsed list price
when both fields are present and `0` otherwise. -/
theorem C2_amended_price_rules (item : XmlNode) (rand : String) :
    (itemRawSalePrice item ≠ "" →
      (mapProduct item rand).price = parsePrice (itemRawSalePrice item)) ∧
    (itemRawSalePrice item = "" →
      (mapProduct item rand).price = parsePrice (itemRawPrice item)) ∧
    (itemRawSalePrice item ≠ "" → itemRawPrice item ≠ "" →
      (mapProduct item rand).listPrice = parsePrice (itemRawPrice item)) ∧
    ((itemRawSalePrice item = "" ∨ itemRawPrice item = "") →
      (mapProduct item rand).listPrice = some 0) := by
  refine ⟨?_, ?_, ?_, ?_⟩
  · intro h
    show itemPrice item = _
    rw [itemPrice, if_pos h]
  · intro h
    show itemPrice item = _
    rw [itemPrice, if_neg (by simp [h])]
  · intro h1 h2
    show itemListPrice item = _
    rw [itemListPrice, if_pos ⟨h1, h2⟩]
  · intro h
    show itemListPrice item = _
    rw [itemListPrice, if_neg]
    rintro ⟨h1, h2⟩
    rcases h with h | h
    · exact h1 h
    · exact h2 h

/-- Witness for C2's amended theorem: an element with a list price but no
sale price gets the list price as `price` and `0` as `listPrice`. -/
theorem C2_amended_price_rules_witness :
    (mapProduct witListOnlyItem "r").price = parsePrice (itemRawPrice witListOnlyItem) ∧
    (mapProduct witListOnlyItem "r").listPrice = some 0 :=
  ⟨(C2_amended_price_rules witListOnlyItem "r").2.1 (by decide),
   (C2_amended_price_rules witListOnlyItem "r").2.2.2 (Or.inl (by decide))⟩

/-- C3 (counterexample): a non-empty price string with no digits, such as
the bare currency code `"ARS"`, cleans to the empty string and parses to
`NaN` (`none`), not to the `0` the claim promises for unparseable
input. -/
theorem C3_counterexample_unparseable_nan :
    parsePrice "ARS" = none ∧ parsePrice "ARS" ≠ some 0 :=
  ⟨by decide, by decide⟩

/-- C3 (amended): cleaning strips every character that is not a digit,
dot or comma and replaces the first comma by a dot, so `"6199999 ARS"`
parses to `6199999` and `"1234,50"` to `1234.5`; empty input yields `0`,
while non-empty input whose cleaned form has no digits yields `NaN`
(`none`), and every successfully parsed price is non-negative. -/
theorem C3_amended_parsePrice :
    parsePrice "6199999 ARS" = some 6199999 ∧
    parsePrice "1234,50" = some (2469 / 2 : ℚ) ∧
    parsePrice "" = some 0 ∧
    ∀ (p : String) (q : ℚ), parsePrice p = some q → 0 ≤ q :=
  ⟨by decide, by decide, by decide, parsePrice_nonneg⟩

/-- Witness for C3's amended theorem: its non-negativity part applied to
the comma-decimal example. -/
theorem C3_amended_parsePrice_witness : (0 : ℚ) ≤ 2469 / 2 :=
  C3_amended_parsePrice.2.2.2 "1234,50" (2469 / 2) (by decide)

/-- C6 (confirmed): product elements are located by trying `item`, then
`entry`, then `product`, each only when the previous set was empty, and
when all three sets are empty normalization fails with the no-products
error. -/
theorem C6_item_entry_product_order (doc : XmlNode) (rand : ℕ → String) :
    ((docGetEls doc "item").isEmpty = false → findItems doc = docGetEls doc "item") ∧
    ((docGetEls doc "item").isEmpty = true → (docGetEls doc "entry").isEmpty = false →
      findItems doc = docGetEls doc "entry") ∧
    ((docGetEls doc "item").isEmpty = true → (docGetEls doc "entry").isEmpty = true →
      findItems doc = docGetEls doc "product") ∧
    ((docGetEls doc "item").isEmpty = true → (docGetEls doc "entry").isEmpty = true →
      (docGetEls doc "product").isEmpty = true →
      normalizeDoc rand doc = .error .noProductsFound) := by
  refine ⟨?_, ?_, ?_, ?_⟩
  · intro h
    simp [findItems, h]
  · intro h1 h2
    simp [findItems, h1, h2]
  · intro h1 h2
    simp [findItems, h1, h2]
  · intro h1 h2 h3
    simp [normalizeDoc, findItems, h1, h2, h3]

/-- Witness for C6: a document with only `entry` elements resolves to the
`entry` set, and a document with none of the three names fails with the
no-products error. -/
theorem C6_item_entry_product_order_witness :
    findItems witEntryDoc = docGetEls witEntryDoc "entry" ∧
    normalizeDoc (fun _ => "r") witNoProductsDoc = .error .noProductsFound :=
  ⟨(C6_item_entry_product_order witEntryDoc (fun _ => "r")).2.1 (by decide) (by decide),
   (C6_item_entry_product_order witNoProductsDoc (fun _ => "r")).2.2.2
     (by decide) (by decide) (by decide)⟩

/-- C10 (confirmed): when no id/sku field resolves, the constructed
product's `id` is the freshly generated random string while its `sku` is
the literal `"N/A"`, so the export filename of every such product is the
same `"pardo_N/A.jpg"`. -/
theorem C10_random_id_fixed_sku (item : XmlNode) (rand : String)
    (h : itemId item = "") :
    (mapProduct item rand).id = rand ∧ (mapProduct item rand).sku = "N/A" ∧
    fileName (mapProduct item rand) = "pardo_N/A.jpg" := by
  refine ⟨?_, ?_, ?_⟩
  · show (if itemId item ≠ "" then itemId item else rand) = rand
    rw [if_neg (by simp [h])]
  · show (if itemId item ≠ "" then itemId item else "N/A") = "N/A"
    rw [if_neg (by simp [h])]
  · show "pardo_" ++ (if itemId item ≠ "" then itemId item else "N/A") ++ ".jpg" = _
    rw [if_neg (by simp [h])]
    decide

/-- Witness for C10 at an element with no id or sku field. -/
theorem C10_random_id_fixed_sku_witness :
    (mapProduct witNoIdItem "abc123").id = "abc123" ∧
    (mapProduct witNoIdItem "abc123").sku = "N/A" ∧
    fileName (mapProduct witNoIdItem "abc123") = "pardo_N/A.jpg" :=
  C10_random_id_fixed_sku witNoIdItem "abc123" (by decide)

/-- C7 (counterexample): an element whose sale-price field is present but
digit-free maps to a record with `NaN` price and the sentinel name; the
filter drops it, yet it does not satisfy the claim's "price <= 0"
description of the dropped set (`NaN <= 0` is false). -/
theorem C7_counterexample_nan_price :
    keepB (mapProduct cexNaNPriceItem "r") = false ∧
    (mapProduct cexNaNPriceItem "r").name = "Sin Nombre" ∧
    (mapProduct cexNaNPriceItem "r").price = none ∧
    jsLe (mapProduct cexNaNPriceItem "r").price 0 = false :=
  ⟨by decide, by decide, by decide, by decide⟩

/-- C7 (amended): a mapped record is kept exactly when its price is
greater than 0 (false for `NaN`) or its name differs from the
`"Sin Nombre"` sentinel — equivalently, the filter drops exactly the
records whose price is not greater than 0 (including `NaN`) and whose
name is the sentinel — and when the filter leaves nothing the operation
fails with the empty-after-filtering error. -/
theorem C7_amended_filter_rule :
    (∀ (rand : ℕ → String) (doc : XmlNode) (p : Product),
      p ∈ mappedProducts rand (findItems doc) →
      (p ∈ validProducts rand doc ↔ (jsGt p.price 0 = true ∨ p.name ≠ "Sin Nombre"))) ∧
    (∀ (rand : ℕ → String) (doc : XmlNode),
      (findItems doc).isEmpty = false → (validProducts rand doc).isEmpty = true →
      normalizeDoc rand doc = .error .emptyAfterFiltering) := by
  constructor
  · intro rand doc p hp
    rw [validProducts, List.mem_filter, keepB]
    simp [hp, bne_iff_ne]
  · intro rand doc h1 h2
    simp [normalizeDoc, h1, h2]

/-- Witness for C7's amended theorem: a kept record satisfies the
membership criterion, and a document whose only record is dropped fails
with the empty-after-filtering error. -/
theorem C7_amended_filter_rule_witness :
    (mapProduct witKeptItem "r" ∈ validProducts (fun _ => "r") witKeptDoc ↔
      (jsGt (mapProduct witKeptItem "r").price 0 = true ∨
        (mapProduct witKeptItem "r").name ≠ "Sin Nombre")) ∧
    normalizeDoc (fun _ => "r") witAllDroppedDoc = .error .emptyAfterFiltering :=
  ⟨C7_amended_filter_rule.1 (fun _ => "r") witKeptDoc (mapProduct witKeptItem "r") (by decide),
   C7_amended_filter_rule.2 (fun _ => "r") witAllDroppedDoc (by decide) (by decide)⟩

/-- C4 (counterexample): a feed whose only product element carries a
usable title next to `<installment><months>0</months></installment>`
normalizes to a single product with `installments = 0`, violating the
claimed invariant `installments >= 1`. -/
theorem C4_counterexample_zero_months :
    (normalizeDoc (fun _ => "r") cexZeroMonthsDoc).map
        (fun ps => ps.map (fun p => p.installments)) = .ok [some 0] ∧
    (normalizeDoc (fun _ => "r") cexZeroMonthsDoc).map
        (fun ps => ps.map (fun p => instGeOne p.installments)) = .ok [false] :=
  ⟨by decide, by decide⟩

/-- C4 (amended): for every document with at least one element surviving
the filter, normalization returns a non-empty product list in which every
parsed price is non-negative (prices can also be `NaN`, never negative),
and in which every product's installments are at least 1 provided every
element's resolved installment count is at least 1 (feeds with a
months/installment value below 1, or non-numeric, escape the
invariant). -/
theorem C4_amended_invariants (doc : XmlNode) (rand : ℕ → String)
    (h1 : ∃ it ∈ findItems doc, keepB (mapProduct it "") = true)
    (h2 : ∀ it ∈ findItems doc, instGeOne (resolveInstallments it) = true) :
    ∃ ps, normalizeDoc rand doc = .ok ps ∧ ps ≠ [] ∧
      ∀ p ∈ ps, (∀ q : ℚ, p.price = some q → 0 ≤ q) ∧ instGeOne p.installments = true := by
  obtain ⟨it, hit, hk⟩ := h1
  have hne : (findItems doc).isEmpty = false := by
    cases hl : findItems doc with
    | nil => rw [hl] at hit; cases hit
    | cons a b => rfl
  obtain ⟨p0, hp0, hkp0⟩ := mapWithRand_keep_of_mem rand hk 0 (findItems doc) hit
  have hmem : p0 ∈ validProducts rand doc := by
    rw [validProducts, List.mem_filter]
    exact ⟨hp0, hkp0⟩
  have hvne : (validProducts rand doc).isEmpty = false := by
    cases hl : validProducts rand doc with
    | nil => rw [hl] at hmem; cases hmem
    | cons a b => rfl
  refine ⟨validProducts rand doc, ?_, ?_, ?_⟩
  · simp [normalizeDoc, hne, hvne]
  · intro hl
    rw [hl] at hvne
    simp at hvne
  · intro p hp
    have hp' : p ∈ mappedProducts rand (findItems doc) := List.mem_of_mem_filter hp
    obtain ⟨it', hit', j, rfl⟩ := mem_mapWithRand hp'
    constructor
    · intro q hq
      exact itemPrice_nonneg it' q hq
    · exact h2 it' hit'

/-- Witness for C4's amended theorem at a one-product feed. -/
theorem C4_amended_invariants_witness :
    ∃ ps, normalizeDoc (fun _ => "w") witGoodDoc = .ok ps ∧ ps ≠ [] ∧
      ∀ p ∈ ps, (∀ q : ℚ, p.price = some q → 0 ≤ q) ∧ instGeOne p.installments = true :=
  C4_amended_invariants witGoodDoc (fun _ => "w") (by decide) (by decide)

theorem toList_append (s t : String) : (s ++ t).toList = s.toList ++ t.toList := rfl

/-- C5 (code bug evaluated): with badges enabled and the product's own
promo text `"5% OFF CONTADO"`, the bank-promo badge is drawn as the claim
describes (280×80 rounded rectangle at (30,150) with the bold "10% OFF"
headline), but its second line is the hardcoded literal `"1 PAGO Débito"`
and the resolved promo text appears in no text operation at all — the
promo text only gates the badge's visibility. -/
theorem C5_promo_text_not_drawn :
    (drawProduct cexPromoProduct cexPromoCfg none).contains
        (.roundRect 30 150 280 80 10 "#0055FF") = true ∧
    (drawProduct cexPromoProduct cexPromoCfg none).contains
        (.fillText "10% OFF" 170 190 "900 36px Roboto" "white") = true ∧
    (drawProduct cexPromoProduct cexPromoCfg none).contains
        (.fillText "1 PAGO Débito" 170 215 "400 18px Roboto" "white") = true ∧
    (drawProduct cexPromoProduct cexPromoCfg none).any (textOpIs "5% OFF CONTADO") = false :=
  ⟨by decide, by decide, by decide, by decide⟩

/-- C8 (counterexample): with `installments = 12` but badges and price
display disabled in the configuration, neither the installment badge nor
the breakdown line is drawn, so "when installments equals 12, both are
drawn" does not hold for every render. -/
theorem C8_counterexample_flags_off :
    twelveInstProduct.installments = some 12 ∧
    (drawProduct twelveInstProduct allOffCfg none).filter isInstBadgeOp = [] ∧
    (drawProduct twelveInstProduct allOffCfg none).filter isBreakdownOp = [] :=
  ⟨rfl, by decide, by decide⟩

/-- C8 (amended): when `installments = 1` neither the installment badge
nor the breakdown line is drawn in any render; when `installments = 12`
the badge (displaying the literal "12") is drawn whenever badges are
enabled, and the breakdown line (starting with "Hasta 12x") is drawn
whenever the price overlay is enabled. -/
theorem C8_amended_installment_visuals (p : Product) (cfg : RenderConfig)
    (img : Option (ℚ × ℚ)) :
    (p.installments = some 1 →
      (drawProduct p cfg img).filter isInstBadgeOp = [] ∧
      (drawProduct p cfg img).filter isBreakdownOp = []) ∧
    (p.installments = some 12 →
      (cfg.showBadges = true →
        DrawOp.fillText "12" 725 187 "900 50px Roboto" "white" ∈ drawProduct p cfg img) ∧
      (cfg.showPrice = true →
        ∃ s, DrawOp.fillText s 500 730 "700 32px Roboto" "#FF6600" ∈ drawProduct p cfg img ∧
          listStartsWith s.toList "Hasta 12x".toList = true)) := by
  constructor
  · intro h
    have hi : jsGtI p.installments 1 = false := by rw [h]; decide
    constructor
    · rw [drawProduct]
      simp only [List.filter_append, noInstBadge_backgroundOps, noInstBadge_imageOps,
        noInstBadge_badgeOps p cfg hi, noInstBadge_priceOps, noInstBadge_frameOps,
        noInstBadge_brandOps, List.append_nil]
    · rw [drawProduct]
      simp only [List.filter_append, noBreakdown_backgroundOps, noBreakdown_imageOps,
        noBreakdown_badgeOps, noBreakdown_priceOps p cfg hi, noBreakdown_frameOps,
        noBreakdown_brandOps, List.append_nil]
  · intro h12
    have hi : jsGtI p.installments 1 = true := by rw [h12]; decide
    constructor
    · intro hb
      have hmem := instBadge_text_mem p cfg hb hi
      rw [h12] at hmem
      have hs : jsNumToString (some 12) = "12" := by decide
      rw [hs] at hmem
      exact mem_drawProduct_of_badgeOps img hmem
    · intro hp
      refine ⟨"Hasta " ++ jsNumToString p.installments ++ "x " ++
        formatPrice (divOpt p.price p.installments) ++ " cuotas sin interés",
        mem_drawProduct_of_priceOps img (breakdown_text_mem p cfg hp hi), ?_⟩
      rw [h12]
      have hcat : ("Hasta " ++ jsNumToString (some 12) ++ "x " : String) = "Hasta 12x " := by
        decide
      rw [hcat, toList_append, toList_append]
      exact listStartsWith_append _ (listStartsWith_append _ (by decide))

/-- Witness for C8's amended theorem at a 12-installment product with
badges and price enabled. -/
theorem C8_amended_installment_visuals_witness :
    DrawOp.fillText "12" 725 187 "900 50px Roboto" "white" ∈
      drawProduct twelveInstProduct allOnCfg none ∧
    ∃ s, DrawOp.fillText s 500 730 "700 32px Roboto" "#FF6600" ∈
        drawProduct twelveInstProduct allOnCfg none ∧
      listStartsWith s.toList "Hasta 12x".toList = true :=
  ⟨((C8_amended_installment_visuals twelveInstProduct allOnCfg none).2 rfl).1 rfl,
   ((C8_amended_installment_visuals twelveInstProduct allOnCfg none).2 rfl).2 rfl⟩

/-- C9 (confirmed): with badges enabled and pickup set, the pickup badge
(260×40 rounded pill at x = 710) is drawn at y = 230 — directly below the
installment badge at y = 150 of height 70 — when `installments > 1`, and
at the installment badge's own slot y = 150 when not; when both right-side
badges are drawn their bands are vertically disjoint, so they never
overlap. -/
theorem C9_confirmed_pickup_slots (p : Product) (cfg : RenderConfig)
    (img : Option (ℚ × ℚ)) (hb : cfg.showBadges = true) (hpk : p.pickup = true) :
    (jsGtI p.installments 1 = true →
      DrawOp.roundRect 710 150 260 70 10 "#FF6600" ∈ drawProduct p cfg img ∧
      DrawOp.roundRect 710 230 260 40 20 "#B3D4FC" ∈ drawProduct p cfg img ∧
      vertDisjoint 150 70 230 40) ∧
    (jsGtI p.installments 1 = false →
      DrawOp.roundRect 710 150 260 40 20 "#B3D4FC" ∈ drawProduct p cfg img) := by
  constructor
  · intro hi
    refine ⟨mem_drawProduct_of_badgeOps img (instBadge_rect_mem p cfg hb hi),
      mem_drawProduct_of_badgeOps img (pickup_rect_mem_of_inst p cfg hb hpk hi),
      Or.inl (by norm_num)⟩
  · intro hi
    exact mem_drawProduct_of_badgeOps img (pickup_rect_mem_of_noInst p cfg hb hpk hi)

/-- Witness for C9 at a 12-installment pickup product. -/
theorem C9_confirmed_pickup_slots_witness :
    DrawOp.roundRect 710 150 260 70 10 "#FF6600" ∈
      drawProduct twelveInstProduct allOnCfg none ∧
    DrawOp.roundRect 710 230 260 40 20 "#B3D4FC" ∈
      drawProduct twelveInstProduct allOnCfg none ∧
    vertDisjoint 150 70 230 40 :=
  (C9_confirmed_pickup_slots twelveInstProduct allOnCfg none rfl rfl).1 (by decide)

end ClaimTheorems
